import Mathlib

/-!
Verification of `src/sdkspec/generate.py`, a one-shot code generator that
loads a YAML specification file, builds a render context, renders a single
Jinja2 template with strict-undefined semantics, and writes the result to a
fixed output path (creating parent directories as needed).

The embedding models Python strings as `List Char` for the character-level
helper (the ASCII behaviour of `str.upper` is realised by core
`Char.toUpper`), the filesystem as an explicit record of files and
directories, YAML documents as an inductive type, and the template engine as
a small token language rendered against an association-list context.
-/

namespace SdkSpec

/-! ## The identifier-derivation helper `java_const` -/

/-- Pointwise ASCII action of Python `str.upper`, realised by `Char.toUpper`. -/
def pyUpper (s : List Char) : List Char := s.map Char.toUpper

/-- Python `str.replace(old, new)` specialised to single-character patterns:
every occurrence of `old` becomes `new`. -/
def pyReplace (old new : Char) (s : List Char) : List Char :=
  s.map (fun c => if c = old then new else c)

/-- Embedding of `java_const` (generate.py lines 9-11):
`name.upper().replace(-, _).replace(., _)` with hyphen and period patterns. -/
def java_const (name : List Char) : List Char :=
  pyReplace '.' '_' (pyReplace '-' '_' (pyUpper name))

/-- The transformation as the specification words it: convert to uppercase,
then replace every hyphen and every period with an underscore. -/
def java_const_spec (name : List Char) : List Char :=
  (pyUpper name).map (fun c => if c = '-' ∨ c = '.' then '_' else c)

/-- Combined per-character action of `java_const`. -/
def javaConstChar (c : Char) : Char :=
  if (if c.toUpper = '-' then '_' else c.toUpper) = '.' then '_'
  else if c.toUpper = '-' then '_' else c.toUpper

/-! ## Data model: YAML documents, filesystem, templates -/

/-- YAML document values as produced by the YAML loader: an arbitrary nested
structure of mappings, sequences and scalars. -/
inductive Yaml where
  | null
  | bool (b : Bool)
  | int (n : Int)
  | str (s : String)
  | seq (items : List Yaml)
  | map (entries : List (String × Yaml))

/-- Errors raised along the pipeline; each aborts the process. -/
inductive Err where
  | fileNotFound (path : String)
  | parseError
  | templateNotFound (name : String)
  | undefinedVariable (name : String)
deriving DecidableEq

/-- Filesystem state: file contents by path, plus the set of directories that
exist. -/
structure FS where
  files : List (String × String)
  dirs : List String

/-- Reading a file returns its content when the path exists. -/
def FS.read (fs : FS) (p : String) : Option String := fs.files.lookup p

/-- Writing a file (Python `Path.write_text`): creates or overwrites the file
at the given path, leaving every other path untouched. -/
def FS.write (fs : FS) (p text : String) : FS :=
  { fs with files := (p, text) :: fs.files.filter (fun e => e.1 != p) }

/-- Components of the chain of parent directories of a path given as
slash-separated segments: for segments `a, b` this is `a` and `a/b`. -/
def ancestors : List String → List String
  | [] => []
  | x :: xs => x :: (ancestors xs).map (fun d => x ++ "/" ++ d)

/-- Splitting a character list at every occurrence of a separator. -/
def splitOnChar (sep : Char) : List Char → List (List Char)
  | [] => [[]]
  | c :: rest =>
    match splitOnChar sep rest with
    | [] => [[c]]
    | g :: gs => if c = sep then [] :: g :: gs else (c :: g) :: gs

/-- Path segments of a slash-separated path. -/
def splitSlash (p : String) : List String :=
  (splitOnChar '/' p.toList).map (fun l => String.mk l)

/-- Parent directories of a path, outermost first (Python
`Path(out).parent.mkdir(parents=True, exist_ok=True)` creates these). -/
def parentDirs (p : String) : List String := ancestors ((splitSlash p).dropLast)

/-- Creating the parent directories of a path (`exist_ok=True`, so already
existing directories are harmless). -/
def FS.mkdirParents (fs : FS) (out : String) : FS :=
  { fs with dirs := parentDirs out ++ fs.dirs }

/-- Modelled from the spec: the text form the template engine gives a context
value referenced directly by the template. Scalars print in Python style;
collection formatting is abbreviated, as no claim depends on it. -/
def yamlText : Yaml → String
  | .null => "None"
  | .bool true => "True"
  | .bool false => "False"
  | .int n => toString n
  | .str s => s
  | .seq _ => "<seq>"
  | .map _ => "<map>"

/-- A template token: literal text or a variable reference. -/
inductive Node where
  | lit (s : String)
  | var (v : String)
deriving DecidableEq

/-- A parsed template is a token sequence. -/
abbrev Template := List Node

/-- The render context is a mapping from names to values. -/
abbrev Ctx := List (String × Yaml)

/-- A template loader environment: named templates, as set up by
`Environment(loader=FileSystemLoader("."), ..., undefined=StrictUndefined)`. -/
abbrev TStore := List (String × Template)

/-- Modelled from the spec: Jinja2 rendering with `undefined=StrictUndefined`
(generate.py lines 24-28), which is absent from the repository source. Literal
text is emitted verbatim; a variable reference substitutes the context value,
and referencing a name missing from the context is a hard failure rather than
an empty substitution. -/
def renderTemplate (ctx : Ctx) : Template → Except Err String
  | [] => .ok ""
  | .lit s :: rest => (renderTemplate ctx rest).map (fun t => s ++ t)
  | .var v :: rest =>
    match ctx.lookup v with
    | none => .error (.undefinedVariable v)
    | some y => (renderTemplate ctx rest).map (fun t => yamlText y ++ t)

/-- Looking a template up in the loader (`env.get_template`), failing when the
name is unknown. -/
def getTemplate (env : TStore) (name : String) : Except Err Template :=
  match env.lookup name with
  | none => .error (.templateNotFound name)
  | some t => .ok t

/-- Outcome of a run: either a final filesystem, or an error together with the
filesystem as it stands when the error is raised. -/
inductive RunResult where
  | ok (fs : FS)
  | err (e : Err) (fs : FS)

/-- Filesystem state carried by a run outcome. -/
def RunResult.state : RunResult → FS
  | .ok fs => fs
  | .err _ fs => fs

/-- Whether a run outcome is an undefined-variable failure. -/
def RunResult.undefinedVarErr : RunResult → Bool
  | .err (.undefinedVariable _) _ => true
  | _ => false

/-- Embedding of `render` (generate.py lines 13-17): load the template, render
it against the context, and only then create the output path parent
directories and write the rendered text. -/
def render (env : TStore) (tpl : String) (ctx : Ctx) (out : String) (fs : FS) : RunResult :=
  match getTemplate env tpl with
  | .error e => .err e fs
  | .ok t =>
    match renderTemplate ctx t with
    | .error e => .err e fs
    | .ok text => .ok ((fs.mkdirParents out).write out text)

/-- Whitespace stripped from both ends of a character list (Python
`str.strip`). -/
def stripChars (s : List Char) : List Char :=
  ((s.dropWhile fun c => c.isWhitespace).reverse.dropWhile fun c => c.isWhitespace).reverse

/-- Modelled from the spec: the scalar fragment of the YAML loader
(`yaml.safe_load`), which is external to the repository source. An empty or
null document loads as null, another plain scalar loads as a string, and a
document containing a tab is a parse error. -/
def yamlParse (s : String) : Except Err Yaml :=
  if s.toList.contains '\t' then .error .parseError
  else
    let t := stripChars s.toList
    if t = [] ∨ t = "null".toList ∨ t = "~".toList then .ok .null
    else .ok (.str (String.mk t))

/-- Embedding of `load_spec` (generate.py lines 4-7): read the file at the
given path, parse it as YAML, and normalise the result for templates as a
mapping holding the parsed document and the source path. -/
def load_spec (fs : FS) (path : String) : Except Err Ctx :=
  match fs.read path with
  | none => .error (.fileNotFound path)
  | some text =>
    match yamlParse text with
    | .error e => .error e
    | .ok raw => .ok [("spec", raw), ("source_path", .str path)]

/-- The fixed namespace string merged into the context (generate.py line 31). -/
def java_package : String := "com.braintrust.semconv"

/-- The fixed template name (generate.py line 34). -/
def templateName : String := "./SdkSpec.java.j2"

/-- The fixed output path (generate.py line 34). -/
def outPath : String := "out/java/SdkSpec.java"

/-- Context construction in the entry point (generate.py lines 30-32): the
`load_spec` mapping merged with the fixed namespace entry. -/
def buildCtx (fs : FS) (specPath : String) : Except Err Ctx :=
  match load_spec fs specPath with
  | .error e => .error e
  | .ok c => .ok (c ++ [("java_package", .str java_package)])

/-- Embedding of the entry point (generate.py lines 19-34): build the context
from the spec file named by `--spec`, then perform the single render-and-write
call against the fixed template name and output path. -/
def generator_run (env : TStore) (fs : FS) (specPath : String) : RunResult :=
  match buildCtx fs specPath with
  | .error e => .err e fs
  | .ok ctx => render env templateName ctx outPath fs

/-! ## Character groundwork for `str.upper` -/

/-- Conversion of a valid codepoint round-trips through `Char.ofNat`. -/
theorem toNat_ofNat_valid {n : Nat} (h : n.isValidChar) : (Char.ofNat n).toNat = n := by
  rw [Char.ofNat, dif_pos h]; rfl

/-- Unfolding of core `Char.toUpper` in terms of codepoints. -/
theorem toUpper_def (c : Char) :
    c.toUpper = if 97 ≤ c.toNat ∧ c.toNat ≤ 122 then Char.ofNat (c.toNat - 32) else c := rfl

/-- Codepoint of `Char.toUpper`: lowercase ASCII letters are shifted down by 32,
everything else is unchanged. -/
theorem toNat_toUpper (c : Char) :
    c.toUpper.toNat = if 97 ≤ c.toNat ∧ c.toNat ≤ 122 then c.toNat - 32 else c.toNat := by
  rw [toUpper_def]
  split
  · exact toNat_ofNat_valid (Or.inl (by omega))
  · rfl

/-- Characters with equal codepoints are equal. -/
theorem char_toNat_inj {c d : Char} (h : c.toNat = d.toNat) : c = d :=
  Char.ext (UInt32.toNat.inj h)

/-- Codepoint characterisation of `Char.isLower`. -/
theorem isLower_iff (c : Char) : c.isLower = true ↔ 97 ≤ c.toNat ∧ c.toNat ≤ 122 := by
  simp [Char.isLower, UInt32.le_def, BitVec.le_def, Char.toNat, UInt32.toNat]

/-- Codepoint characterisation of `Char.isUpper`. -/
theorem isUpper_iff (c : Char) : c.isUpper = true ↔ 65 ≤ c.toNat ∧ c.toNat ≤ 90 := by
  simp [Char.isUpper, UInt32.le_def, BitVec.le_def, Char.toNat, UInt32.toNat]

/-- Codepoint characterisation of `Char.isDigit`. -/
theorem isDigit_iff (c : Char) : c.isDigit = true ↔ 48 ≤ c.toNat ∧ c.toNat ≤ 57 := by
  simp [Char.isDigit, UInt32.le_def, BitVec.le_def, Char.toNat, UInt32.toNat]

/-- Uppercasing is idempotent. -/
theorem toUpper_idem (c : Char) : c.toUpper.toUpper = c.toUpper := by
  apply char_toNat_inj
  rw [toNat_toUpper, toNat_toUpper]
  split
  · split <;> omega
  · rfl

/-- Uppercasing can only hit a target below codepoint 65 if the input already
equals that target. -/
theorem eq_of_toUpper_eq_low {c d : Char} (hd : d.toNat < 65) (h : c.toUpper = d) : c = d := by
  rw [toUpper_def] at h
  split at h
  · have h45 := congrArg Char.toNat h
    rw [toNat_ofNat_valid (Or.inl (by omega))] at h45
    omega
  · exact h

/-! ## Properties of `java_const` -/

/-- The composite `java_const` acts as `javaConstChar` mapped over the input. -/
theorem java_const_eq_map (name : List Char) :
    java_const name = name.map javaConstChar := by
  unfold java_const pyReplace pyUpper javaConstChar
  simp [List.map_map, Function.comp]

/-- Closed form of the per-character action: hyphen and period become an
underscore, everything else is uppercased. -/
theorem javaConstChar_eq (c : Char) :
    javaConstChar c = if c = '-' ∨ c = '.' then '_' else c.toUpper := by
  by_cases h1 : c = '-'
  · subst h1; decide
  · by_cases h2 : c = '.'
    · subst h2; decide
    · have hu1 : c.toUpper ≠ '-' := fun h => h1 (eq_of_toUpper_eq_low (by decide) h)
      have hu2 : c.toUpper ≠ '.' := fun h => h2 (eq_of_toUpper_eq_low (by decide) h)
      unfold javaConstChar
      simp [h1, h2, hu1, hu2]

/-- Uppercasing hits a hyphen only from a hyphen. -/
theorem toUpper_eq_dash_iff (c : Char) : c.toUpper = '-' ↔ c = '-' :=
  ⟨eq_of_toUpper_eq_low (by decide), fun h => by subst h; decide⟩

/-- Uppercasing hits a period only from a period. -/
theorem toUpper_eq_dot_iff (c : Char) : c.toUpper = '.' ↔ c = '.' :=
  ⟨eq_of_toUpper_eq_low (by decide), fun h => by subst h; decide⟩

/-- Mapping pointwise-equal functions over a list gives equal lists. -/
theorem map_congr_fun {f g : Char → Char} (h : ∀ c, f c = g c) :
    ∀ l : List Char, l.map f = l.map g := by
  intro l
  induction l with
  | nil => rfl
  | cons a t ih => simp [h a, ih]

/-- Per-character action phrased on the uppercased character, matching the
order of operations in the source (uppercase first, then replace). -/
theorem javaConstChar_eq_spec (c : Char) :
    javaConstChar c = if c.toUpper = '-' ∨ c.toUpper = '.' then '_' else c.toUpper := by
  rw [javaConstChar_eq]
  simp only [toUpper_eq_dash_iff, toUpper_eq_dot_iff]

/-- The per-character action is idempotent. -/
theorem javaConstChar_idem (c : Char) : javaConstChar (javaConstChar c) = javaConstChar c := by
  rw [javaConstChar_eq c]
  by_cases hc : c = '-' ∨ c = '.'
  · rw [if_pos hc]
    decide
  · rw [if_neg hc]
    have h1 : c.toUpper ≠ '-' := fun h => hc (Or.inl ((toUpper_eq_dash_iff c).mp h))
    have h2 : c.toUpper ≠ '.' := fun h => hc (Or.inr ((toUpper_eq_dot_iff c).mp h))
    rw [javaConstChar_eq]
    rw [if_neg (by tauto)]
    exact toUpper_idem c

/-- C1: for every input string, `java_const` returns the input uppercased with
every hyphen and every period replaced by an underscore; in particular it maps
"semantic-conv.name" to "SEMANTIC_CONV_NAME". -/
theorem java_const_matches_spec :
    (∀ name : List Char, java_const name = java_const_spec name) ∧
    java_const ("semantic-conv.name".toList) = "SEMANTIC_CONV_NAME".toList := by
  constructor
  · intro name
    rw [java_const_eq_map]
    unfold java_const_spec pyUpper
    rw [List.map_map]
    exact map_congr_fun (fun c => by rw [javaConstChar_eq_spec]; rfl) name
  · rfl

/-- C6: `java_const` acts characterwise; on letters, digits, hyphens and
periods it produces only uppercase letters, digits and underscores, and every
character other than a hyphen or period is uppercased but otherwise
unchanged. -/
theorem java_const_char_classes :
    (∀ name : List Char, java_const name = name.map javaConstChar) ∧
    (∀ c : Char, (c.isAlpha = true ∨ c.isDigit = true ∨ c = '-' ∨ c = '.') →
      ((javaConstChar c).isUpper = true ∨ (javaConstChar c).isDigit = true ∨
        javaConstChar c = '_')) ∧
    (∀ c : Char, c ≠ '-' → c ≠ '.' → javaConstChar c = c.toUpper) := by
  refine ⟨java_const_eq_map, ?_, ?_⟩
  · intro c h
    rw [javaConstChar_eq]
    by_cases hc : c = '-' ∨ c = '.'
    · rw [if_pos hc]; right; right; rfl
    · rw [if_neg hc]
      rcases h with h | h | h | h
      · left
        simp only [Char.isAlpha, Bool.or_eq_true, isUpper_iff, isLower_iff] at h
        rw [isUpper_iff, toNat_toUpper]
        split <;> omega
      · right; left
        rw [isDigit_iff] at h ⊢
        rw [toNat_toUpper, if_neg (by omega)]
        exact h
      · exact absurd (Or.inl h) hc
      · exact absurd (Or.inr h) hc
  · intro c h1 h2
    rw [javaConstChar_eq, if_neg (by tauto)]

/-- Witness for C6 at concrete characters. -/
theorem java_const_char_classes_witness :
    ((javaConstChar 'a').isUpper = true ∨ (javaConstChar 'a').isDigit = true ∨
      javaConstChar 'a' = '_') ∧ javaConstChar '@' = '@'.toUpper :=
  ⟨java_const_char_classes.2.1 'a' (Or.inl (by decide)),
   java_const_char_classes.2.2 '@' (by decide) (by decide)⟩

/-- C9: `java_const` is idempotent. -/
theorem java_const_idempotent :
    ∀ s : List Char, java_const (java_const s) = java_const s := by
  intro s
  rw [java_const_eq_map, java_const_eq_map s]
  induction s with
  | nil => rfl
  | cons a t ih => simp only [List.map_cons, javaConstChar_idem, ih]

/-! ## Filesystem lemmas -/

/-- Lookup is unaffected by filtering away entries with a different key. -/
theorem lookup_filter_ne {β : Type} (p q : String) (h : q ≠ p) :
    ∀ l : List (String × β), (l.filter (fun e => e.1 != p)).lookup q = l.lookup q := by
  intro l
  induction l with
  | nil => rfl
  | cons a tl ih =>
    obtain ⟨k, b⟩ := a
    by_cases hkp : k = p
    · subst hkp
      simp only [List.filter_cons]
      simp [List.lookup, show (q == k) = false from by simp [h], ih]
    · by_cases hqk : q = k
      · subst hqk
        simp [List.filter_cons, List.lookup, show (q != p) = true from by simp [h]]
      · simp [List.filter_cons, List.lookup, hkp,
          show (q == k) = false from by simp [hqk], ih]

/-- Reading back a freshly written file yields the written text. -/
theorem FS.read_write_self (fs : FS) (p text : String) :
    (FS.write fs p text).read p = some text := by
  simp [FS.read, FS.write, List.lookup]

/-- Writing one path leaves the content of every other path unchanged. -/
theorem FS.read_write_ne (fs : FS) (p q text : String) (h : q ≠ p) :
    (FS.write fs p text).read q = fs.read q := by
  simp only [FS.read, FS.write, List.lookup, show (q == p) = false from by simp [h]]
  exact lookup_filter_ne p q h fs.files

/-- Creating directories does not change file contents. -/
theorem FS.read_mkdirParents (fs : FS) (out q : String) :
    (fs.mkdirParents out).read q = fs.read q := rfl

/-- The concrete parent chain of the fixed output path. -/
theorem parentDirs_outPath : parentDirs outPath = ["out", "out/java"] := rfl

/-! ## Strict-undefined rendering -/

/-- A template referencing a name missing from the context renders to an
undefined-variable error. -/
theorem renderTemplate_strict (ctx : Ctx) (v : String) :
    ∀ t : Template, Node.var v ∈ t → ctx.lookup v = none →
      ∃ w, ctx.lookup w = none ∧
        renderTemplate ctx t = .error (.undefinedVariable w) := by
  intro t
  induction t with
  | nil => intro hmem _; exact absurd hmem (List.not_mem_nil _)
  | cons a rest ih =>
    intro hmem hmiss
    cases a with
    | lit s =>
      have hm : Node.var v ∈ rest := by
        rcases List.mem_cons.mp hmem with hh | hh
        · exact absurd hh (by simp)
        · exact hh
      obtain ⟨w, hw1, hw2⟩ := ih hm hmiss
      exact ⟨w, hw1, by simp [renderTemplate, hw2, Except.map]⟩
    | var u =>
      cases hu : ctx.lookup u with
      | none => exact ⟨u, hu, by simp [renderTemplate, hu]⟩
      | some y =>
        have hm : Node.var v ∈ rest := by
          rcases List.mem_cons.mp hmem with hh | hh
          · cases hh
            rw [hmiss] at hu
            cases hu
          · exact hh
        obtain ⟨w, hw1, hw2⟩ := ih hm hmiss
        exact ⟨w, hw1, by simp [renderTemplate, hu, hw2, Except.map]⟩

/-- C2: rendering uses strict-undefined semantics — when the template
references a variable not present in the context, the render operation fails
with an undefined-variable error instead of substituting an empty value, and
leaves the filesystem untouched. -/
theorem render_strict_undefined (env : TStore) (tpl : String) (ctx : Ctx)
    (out : String) (fs : FS) (t : Template) (v : String)
    (hT : getTemplate env tpl = .ok t) (hv : Node.var v ∈ t)
    (hmiss : ctx.lookup v = none) :
    (render env tpl ctx out fs).undefinedVarErr = true ∧
    (render env tpl ctx out fs).state = fs := by
  obtain ⟨w, hw, hr⟩ := renderTemplate_strict ctx v t hv hmiss
  have h : render env tpl ctx out fs = .err (.undefinedVariable w) fs := by
    simp [render, hT, hr]
  rw [h]
  exact ⟨rfl, rfl⟩

/-- Witness for C2: a one-variable template rendered against an empty
context. -/
theorem render_strict_undefined_witness :
    (render [(templateName, [Node.var "missing"])] templateName [] outPath
      ⟨[], []⟩).undefinedVarErr = true ∧
    (render [(templateName, [Node.var "missing"])] templateName [] outPath
      ⟨[], []⟩).state = (⟨[], []⟩ : FS) :=
  render_strict_undefined _ _ _ _ _ [Node.var "missing"] "missing" rfl (by simp) rfl

/-- C3: rendering completes before any filesystem effect — on a render error
no output file is written and no parent directory is created; the filesystem
is left exactly as it was. -/
theorem render_error_no_write (env : TStore) (tpl : String) (ctx : Ctx)
    (out : String) (fs : FS) (t : Template) (e : Err)
    (hT : getTemplate env tpl = .ok t) (hr : renderTemplate ctx t = .error e) :
    render env tpl ctx out fs = .err e fs ∧
    (render env tpl ctx out fs).state.read out = fs.read out ∧
    (render env tpl ctx out fs).state.dirs = fs.dirs := by
  have h : render env tpl ctx out fs = .err e fs := by simp [render, hT, hr]
  exact ⟨h, by rw [h]; rfl, by rw [h]; rfl⟩

/-- Witness for C3: a failing render against a filesystem with existing
content leaves it untouched. -/
theorem render_error_no_write_witness :
    render [(templateName, [Node.var "x"])] templateName [] outPath
        ⟨[("a.txt", "A")], ["d"]⟩ =
      .err (.undefinedVariable "x") ⟨[("a.txt", "A")], ["d"]⟩ ∧
    (render [(templateName, [Node.var "x"])] templateName [] outPath
        ⟨[("a.txt", "A")], ["d"]⟩).state.read outPath =
      (⟨[("a.txt", "A")], ["d"]⟩ : FS).read outPath ∧
    (render [(templateName, [Node.var "x"])] templateName [] outPath
        ⟨[("a.txt", "A")], ["d"]⟩).state.dirs =
      (⟨[("a.txt", "A")], ["d"]⟩ : FS).dirs :=
  render_error_no_write _ _ _ _ _ [Node.var "x"] (.undefinedVariable "x") rfl rfl

/-! ## Entry-point properties -/

/-- C7: when the spec file does not exist, the run terminates with a
file-not-found error, the filesystem is untouched, and the outcome does not
depend on the template store at all — no render and no write ever occurs. -/
theorem generator_missing_spec_file (env env2 : TStore) (fs : FS) (p : String)
    (h : fs.read p = none) :
    generator_run env fs p = .err (.fileNotFound p) fs ∧
    generator_run env2 fs p = generator_run env fs p := by
  have key : ∀ env0 : TStore, generator_run env0 fs p = .err (.fileNotFound p) fs := by
    intro env0
    simp [generator_run, buildCtx, load_spec, h]
  exact ⟨key env, (key env2).trans (key env).symm⟩

/-- Witness for C7 on an empty filesystem: the outcome is the error even under
a template store that could render successfully. -/
theorem generator_missing_spec_file_witness :
    generator_run [] ⟨[], []⟩ "nonexistent.yaml" =
      .err (.fileNotFound "nonexistent.yaml") ⟨[], []⟩ ∧
    generator_run [(templateName, [Node.lit "A"])] ⟨[], []⟩ "nonexistent.yaml" =
      generator_run [] ⟨[], []⟩ "nonexistent.yaml" :=
  generator_missing_spec_file [] [(templateName, [Node.lit "A"])] ⟨[], []⟩
    "nonexistent.yaml" rfl

/-- C8: when rendering succeeds, the rendered text is written to the fixed
output path, the missing parent directories are created first, any existing
file there is overwritten, and every other path is untouched — for every
initial filesystem, including one where all parents are absent. -/
theorem render_success_writes (env : TStore) (ctx : Ctx) (fs : FS) (t : Template)
    (text q : String) (hT : getTemplate env templateName = .ok t)
    (hr : renderTemplate ctx t = .ok text) (hq : q ≠ outPath) :
    render env templateName ctx outPath fs =
      .ok ((fs.mkdirParents outPath).write outPath text) ∧
    ((fs.mkdirParents outPath).write outPath text).read outPath = some text ∧
    "out" ∈ ((fs.mkdirParents outPath).write outPath text).dirs ∧
    "out/java" ∈ ((fs.mkdirParents outPath).write outPath text).dirs ∧
    ((fs.mkdirParents outPath).write outPath text).read q = fs.read q := by
  refine ⟨by simp [render, hT, hr], FS.read_write_self _ _ _, ?_, ?_, ?_⟩
  · show "out" ∈ (parentDirs outPath ++ fs.dirs)
    rw [parentDirs_outPath]
    simp
  · show "out/java" ∈ (parentDirs outPath ++ fs.dirs)
    rw [parentDirs_outPath]
    simp
  · rw [FS.read_write_ne _ _ _ _ hq]
    rfl

/-- Witness for C8: a successful render against an initially empty filesystem
(no parent directory exists). -/
theorem render_success_writes_witness :
    render [(templateName, [Node.lit "hello"])] templateName [] outPath ⟨[], []⟩ =
      .ok (((⟨[], []⟩ : FS).mkdirParents outPath).write outPath ("hello" ++ "")) ∧
    (((⟨[], []⟩ : FS).mkdirParents outPath).write outPath ("hello" ++ "")).read outPath =
      some ("hello" ++ "") ∧
    "out" ∈ (((⟨[], []⟩ : FS).mkdirParents outPath).write outPath ("hello" ++ "")).dirs ∧
    "out/java" ∈ (((⟨[], []⟩ : FS).mkdirParents outPath).write outPath ("hello" ++ "")).dirs ∧
    (((⟨[], []⟩ : FS).mkdirParents outPath).write outPath ("hello" ++ "")).read "other.txt" =
      (⟨[], []⟩ : FS).read "other.txt" :=
  render_success_writes _ _ _ [Node.lit "hello"] ("hello" ++ "") "other.txt" rfl rfl
    (by decide)

/-- C4: before rendering, the context contains exactly the three documented
entries, in order: the parsed document under "spec", the spec path string
under "source_path", and the fixed namespace string under "java_package". -/
theorem buildCtx_exact_keys (fs : FS) (p content : String) (raw : Yaml)
    (hread : fs.read p = some content) (hparse : yamlParse content = .ok raw) :
    buildCtx fs p =
      .ok [("spec", raw), ("source_path", .str p), ("java_package", .str java_package)] := by
  simp [buildCtx, load_spec, hread, hparse]

/-- Witness for C4 on a concrete one-file filesystem. -/
theorem buildCtx_exact_keys_witness :
    buildCtx ⟨[("sdk-spec.yaml", "hello")], []⟩ "sdk-spec.yaml" =
      .ok [("spec", .str "hello"), ("source_path", .str "sdk-spec.yaml"),
           ("java_package", .str java_package)] :=
  buildCtx_exact_keys ⟨[("sdk-spec.yaml", "hello")], []⟩ "sdk-spec.yaml" "hello"
    (.str "hello") rfl rfl

/-- C5: the generator is deterministic — with the spec file content and the
template store fixed, the context is determined, and any two successful runs
write byte-identical output files. -/
theorem generator_deterministic (env : TStore) (fs1 fs2 g1 g2 : FS) (p : String)
    (h : fs1.read p = fs2.read p)
    (h1 : generator_run env fs1 p = .ok g1) (h2 : generator_run env fs2 p = .ok g2) :
    buildCtx fs1 p = buildCtx fs2 p ∧ g1.read outPath = g2.read outPath := by
  have hctx : buildCtx fs1 p = buildCtx fs2 p := by
    unfold buildCtx load_spec
    rw [h]
  refine ⟨hctx, ?_⟩
  cases hb : buildCtx fs2 p with
  | error e =>
    simp only [generator_run, hb] at h2
    cases h2
  | ok ctx =>
    simp only [generator_run, hctx, hb] at h1
    simp only [generator_run, hb] at h2
    cases hT : getTemplate env templateName with
    | error e =>
      simp only [render, hT] at h1
      cases h1
    | ok t =>
      cases hr : renderTemplate ctx t with
      | error e =>
        simp only [render, hT, hr] at h1
        cases h1
      | ok text =>
        simp only [render, hT, hr] at h1 h2
        injection h1 with h1
        injection h2 with h2
        subst h1
        subst h2
        rw [FS.read_write_self, FS.read_write_self]

/-- Witness for C5: two filesystems agreeing on the spec file but differing
elsewhere produce the same output text. -/
theorem generator_deterministic_witness :
    buildCtx ⟨[("s.yaml", "hi")], []⟩ "s.yaml" =
      buildCtx ⟨[("s.yaml", "hi"), ("junk", "z")], []⟩ "s.yaml" ∧
    (⟨[(outPath, "A" ++ ""), ("s.yaml", "hi")], ["out", "out/java"]⟩ : FS).read outPath =
    (⟨[(outPath, "A" ++ ""), ("s.yaml", "hi"), ("junk", "z")],
      ["out", "out/java"]⟩ : FS).read outPath :=
  generator_deterministic [(templateName, [Node.lit "A"])] ⟨[("s.yaml", "hi")], []⟩
    ⟨[("s.yaml", "hi"), ("junk", "z")], []⟩
    ⟨[(outPath, "A" ++ ""), ("s.yaml", "hi")], ["out", "out/java"]⟩
    ⟨[(outPath, "A" ++ ""), ("s.yaml", "hi"), ("junk", "z")], ["out", "out/java"]⟩
    "s.yaml" rfl rfl rfl

/-- C10: an empty spec file (or one holding only a YAML null document) loads
without error into a context whose "spec" entry is null. -/
theorem load_spec_empty_ok (fs : FS) (p content : String)
    (hread : fs.read p = some content) (hc : content = "" ∨ content = "null") :
    load_spec fs p = .ok [("spec", Yaml.null), ("source_path", Yaml.str p)] ∧
    ([("spec", Yaml.null), ("source_path", Yaml.str p)] : Ctx).lookup "spec" =
      some Yaml.null := by
  have hparse : yamlParse content = .ok Yaml.null := by
    rcases hc with h | h <;> subst h <;> rfl
  exact ⟨by simp [load_spec, hread, hparse], rfl⟩

/-- Witness for C10 on a filesystem holding an empty spec file. -/
theorem load_spec_empty_ok_witness :
    load_spec ⟨[("sdk-spec.yaml", "")], []⟩ "sdk-spec.yaml" =
      .ok [("spec", Yaml.null), ("source_path", Yaml.str "sdk-spec.yaml")] ∧
    ([("spec", Yaml.null), ("source_path", Yaml.str "sdk-spec.yaml")] : Ctx).lookup "spec" =
      some Yaml.null :=
  load_spec_empty_ok ⟨[("sdk-spec.yaml", "")], []⟩ "sdk-spec.yaml" "" rfl (Or.inl rfl)

end SdkSpec
